import Mathlib

/-!
Verification of `src/orion-ui/packages/orion-design/src/models/GlobalFilterDefaults.ts`.

The file under verification is a single TypeScript class `GlobalFilterDefaults`
implementing the interface `GlobalFilter`: a pure data-initialization object that
supplies default filter payloads for four entity categories (`flows`,
`deployments`, `flow_runs`, `task_runs`).  We embed the data model, the
constructed instance, the runtime (JavaScript) object view, and the field
declarations of the class, and prove the spec's properties over them.
-/

/-- Modelled from the spec: the `RunState` type from `@/types/filters/global`
(the types file is not in the provided sources); spec §3 gives
`RunState = { name: string (display label), type: string (enumerated status code) }`. -/
structure RunState where
  name : String
  type : String
deriving DecidableEq, Repr

/-- Modelled from the spec: `TimeOffset = { value: integer, unit: string-enum("days"|...) }`
per spec §3 (the types file defining `RunTimeFrame` is not in the provided sources). -/
structure TimeOffset where
  value : Int
  unit : String
deriving DecidableEq, Repr

/-- Modelled from the spec: `RunTimeFrame = { dynamic: boolean, from: TimeOffset, to: TimeOffset }`
per spec §3 (the types file is not in the provided sources). -/
structure RunTimeFrame where
  dynamic : Bool
  «from» : TimeOffset
  «to» : TimeOffset
deriving DecidableEq, Repr

/-- The shape of the `flow_runs` field of `GlobalFilterDefaults`:
`{ timeframe: this.defaultTimeFrame, states: this.defaultStates }`. -/
structure FlowRunsFilter where
  timeframe : RunTimeFrame
  states : List RunState
deriving DecidableEq, Repr

/-- A TypeScript empty object literal `{}`: a record with no fields. -/
structure EmptyObject where
deriving DecidableEq, Repr

/-- The instance shape of the class `GlobalFilterDefaults`: its six fields, in
declaration order — two private (`defaultStates`, `defaultTimeFrame`) and four
public (`flows`, `deployments`, `flow_runs`, `task_runs`). -/
structure GlobalFilterDefaults where
  defaultStates : List RunState
  defaultTimeFrame : RunTimeFrame
  flows : EmptyObject
  deployments : EmptyObject
  flow_runs : FlowRunsFilter
  task_runs : EmptyObject
deriving DecidableEq, Repr

namespace GlobalFilterDefaults

/-- Construction of a `GlobalFilterDefaults` instance: every field is set by its
initializer in the class body, exactly as in the source. -/
def new : GlobalFilterDefaults :=
  let ds : List RunState :=
    [ { name := "Scheduled", type := "SCHEDULED" },
      { name := "Pending", type := "PENDING" },
      { name := "Running", type := "RUNNING" },
      { name := "Completed", type := "COMPLETED" },
      { name := "Failed", type := "FAILED" },
      { name := "Cancelled", type := "CANCELLED" } ]
  let tf : RunTimeFrame :=
    { dynamic := true
      «from» := { value := 7, unit := "days" }
      «to» := { value := 1, unit := "days" } }
  { defaultStates := ds
    defaultTimeFrame := tf
    flows := {}
    deployments := {}
    flow_runs := { timeframe := tf, states := ds }
    task_runs := {} }

end GlobalFilterDefaults

/-- A JavaScript runtime value: the untyped view of the objects the class
builds.  `obj` keeps its key/value pairs in insertion order, as JavaScript
own-property enumeration does. -/
inductive JsValue where
  | bool : Bool → JsValue
  | num : Int → JsValue
  | str : String → JsValue
  | arr : List JsValue → JsValue
  | obj : List (String × JsValue) → JsValue

namespace JsValue

/-- The own-property keys of a runtime value (empty for non-objects). -/
def keys : JsValue → List String
  | .obj kvs => kvs.map Prod.fst
  | _ => []

end JsValue

mutual

/-- Structural (deep) equality of two JavaScript runtime values, the notion of
"deep-equal" the spec's idempotence property speaks of. -/
def JsValue.deepEqual : JsValue → JsValue → Bool
  | .bool a, .bool b => a == b
  | .num a, .num b => a == b
  | .str a, .str b => a == b
  | .arr xs, .arr ys => JsValue.deepEqualList xs ys
  | .obj xs, .obj ys => JsValue.deepEqualPairs xs ys
  | _, _ => false

/-- Elementwise deep equality of two arrays of runtime values. -/
def JsValue.deepEqualList : List JsValue → List JsValue → Bool
  | [], [] => true
  | x :: xs, y :: ys => JsValue.deepEqual x y && JsValue.deepEqualList xs ys
  | _, _ => false

/-- Pairwise deep equality of two ordered key/value property lists. -/
def JsValue.deepEqualPairs : List (String × JsValue) → List (String × JsValue) → Bool
  | [], [] => true
  | (k₁, v₁) :: xs, (k₂, v₂) :: ys =>
      k₁ == k₂ && JsValue.deepEqual v₁ v₂ && JsValue.deepEqualPairs xs ys
  | _, _ => false

end

/-- The runtime object `{ name: ..., type: ... }` a `RunState` literal builds. -/
def RunState.toJs (s : RunState) : JsValue :=
  .obj [("name", .str s.name), ("type", .str s.type)]

/-- The runtime object `{ value: ..., unit: ... }` a `TimeOffset` literal builds. -/
def TimeOffset.toJs (t : TimeOffset) : JsValue :=
  .obj [("value", .num t.value), ("unit", .str t.unit)]

/-- The runtime object `{ dynamic: ..., from: ..., to: ... }` a `RunTimeFrame`
literal builds. -/
def RunTimeFrame.toJs (t : RunTimeFrame) : JsValue :=
  .obj [("dynamic", .bool t.dynamic), ("from", t.«from».toJs), ("to", t.«to».toJs)]

/-- The runtime object `{ timeframe: ..., states: [...] }` held in `flow_runs`. -/
def FlowRunsFilter.toJs (f : FlowRunsFilter) : JsValue :=
  .obj [("timeframe", f.timeframe.toJs), ("states", .arr (f.states.map RunState.toJs))]

namespace GlobalFilterDefaults

/-- The runtime object a constructed instance is: all six field initializers
run in declaration order, so the instance's own properties are the two
TypeScript-private fields followed by the four public ones (TypeScript access
modifiers are erased at runtime). -/
def toJsInstance (g : GlobalFilterDefaults) : JsValue :=
  .obj
    [ ("defaultStates", .arr (g.defaultStates.map RunState.toJs)),
      ("defaultTimeFrame", g.defaultTimeFrame.toJs),
      ("flows", .obj []),
      ("deployments", .obj []),
      ("flow_runs", g.flow_runs.toJs),
      ("task_runs", .obj []) ]

/-- A field declaration of the class: its name and its TypeScript modifiers. -/
structure FieldDecl where
  fieldName : String
  isPublic : Bool
  isReadonly : Bool
deriving DecidableEq, Repr

/-- The six field declarations of the class body, in source order, with the
modifiers written in the source: `private readonly defaultStates`,
`private readonly defaultTimeFrame`, `public flows`, `public deployments`,
`public flow_runs`, `public task_runs`. -/
def fieldDecls : List FieldDecl :=
  [ { fieldName := "defaultStates", isPublic := false, isReadonly := true },
    { fieldName := "defaultTimeFrame", isPublic := false, isReadonly := true },
    { fieldName := "flows", isPublic := true, isReadonly := false },
    { fieldName := "deployments", isPublic := true, isReadonly := false },
    { fieldName := "flow_runs", isPublic := true, isReadonly := false },
    { fieldName := "task_runs", isPublic := true, isReadonly := false } ]

end GlobalFilterDefaults

/-- Own-property lookup on a runtime object: the value stored under key `k`,
`none` when the key is absent or the value is not an object. -/
def JsValue.get (v : JsValue) (k : String) : Option JsValue :=
  match v with
  | .obj kvs => (kvs.find? fun p => p.1 == k).map Prod.snd
  | _ => none

/-- A word rewritten with its first letter upper-cased and every remaining
letter lower-cased: the relation claimed between a run-state type code and its
display name. -/
def capitalizeFirst (s : String) : String :=
  match s.data with
  | [] => ""
  | c :: cs => ⟨c.toUpper :: cs.map Char.toLower⟩

/-- The Boolean reading of claim C5 over the class's field declarations: the
declared fields are exactly the four keys `flows`, `deployments`, `flow_runs`,
`task_runs`, and every field is public and readonly. -/
def claimC5Check : Bool :=
  (GlobalFilterDefaults.fieldDecls.map (fun f => f.fieldName) ==
    ["flows", "deployments", "flow_runs", "task_runs"]) &&
  GlobalFilterDefaults.fieldDecls.all (fun f => f.isPublic && f.isReadonly)

/-- C1: for every instance of `GlobalFilterDefaults`, `flow_runs.states` is the
list of exactly six `RunState` records pairing the type codes SCHEDULED,
PENDING, RUNNING, COMPLETED, FAILED, CANCELLED with their matching display
names 'Scheduled', 'Pending', 'Running', 'Completed', 'Failed', 'Cancelled'. -/
theorem flow_runs_states_exact (g : GlobalFilterDefaults)
    (h : g = GlobalFilterDefaults.new) :
    g.flow_runs.states =
      [ { name := "Scheduled", type := "SCHEDULED" },
        { name := "Pending", type := "PENDING" },
        { name := "Running", type := "RUNNING" },
        { name := "Completed", type := "COMPLETED" },
        { name := "Failed", type := "FAILED" },
        { name := "Cancelled", type := "CANCELLED" } ] ∧
    g.flow_runs.states.length = 6 := by
  subst h
  exact ⟨rfl, rfl⟩

/-- C1 witness: the theorem evaluated at the constructed instance. -/
theorem flow_runs_states_exact_witness :
    GlobalFilterDefaults.new.flow_runs.states =
      [ { name := "Scheduled", type := "SCHEDULED" },
        { name := "Pending", type := "PENDING" },
        { name := "Running", type := "RUNNING" },
        { name := "Completed", type := "COMPLETED" },
        { name := "Failed", type := "FAILED" },
        { name := "Cancelled", type := "CANCELLED" } ] ∧
    GlobalFilterDefaults.new.flow_runs.states.length = 6 :=
  flow_runs_states_exact GlobalFilterDefaults.new rfl

/-- C2: for every instance, `flow_runs.timeframe.from` is `{ value: 7, unit: 'days' }`
and `flow_runs.timeframe.to` is `{ value: 1, unit: 'days' }`. -/
theorem flow_runs_timeframe_window (g : GlobalFilterDefaults)
    (h : g = GlobalFilterDefaults.new) :
    g.flow_runs.timeframe.«from» = { value := 7, unit := "days" } ∧
    g.flow_runs.timeframe.«to» = { value := 1, unit := "days" } := by
  subst h
  exact ⟨rfl, rfl⟩

/-- C2 witness: the theorem evaluated at the constructed instance. -/
theorem flow_runs_timeframe_window_witness :
    GlobalFilterDefaults.new.flow_runs.timeframe.«from» = { value := 7, unit := "days" } ∧
    GlobalFilterDefaults.new.flow_runs.timeframe.«to» = { value := 1, unit := "days" } :=
  flow_runs_timeframe_window GlobalFilterDefaults.new rfl

/-- C3: for every instance, the runtime objects stored under `flows`,
`deployments` and `task_runs` are empty objects with no keys. -/
theorem empty_filter_objects_no_keys (g : GlobalFilterDefaults)
    (h : g = GlobalFilterDefaults.new) :
    (g.toJsInstance.get "flows").map JsValue.keys = some [] ∧
    (g.toJsInstance.get "deployments").map JsValue.keys = some [] ∧
    (g.toJsInstance.get "task_runs").map JsValue.keys = some [] := by
  subst h
  decide

/-- C3 witness: the theorem evaluated at the constructed instance. -/
theorem empty_filter_objects_no_keys_witness :
    (GlobalFilterDefaults.new.toJsInstance.get "flows").map JsValue.keys = some [] ∧
    (GlobalFilterDefaults.new.toJsInstance.get "deployments").map JsValue.keys = some [] ∧
    (GlobalFilterDefaults.new.toJsInstance.get "task_runs").map JsValue.keys = some [] :=
  empty_filter_objects_no_keys GlobalFilterDefaults.new rfl

/-- C4: for every instance, `flow_runs.timeframe.dynamic` is `true`. -/
theorem flow_runs_timeframe_dynamic (g : GlobalFilterDefaults)
    (h : g = GlobalFilterDefaults.new) :
    g.flow_runs.timeframe.dynamic = true := by
  subst h
  rfl

/-- C4 witness: the theorem evaluated at the constructed instance. -/
theorem flow_runs_timeframe_dynamic_witness :
    GlobalFilterDefaults.new.flow_runs.timeframe.dynamic = true :=
  flow_runs_timeframe_dynamic GlobalFilterDefaults.new rfl

/-- C5 counterexample: the claim that the class's fields are exactly the four
public keys, all read-only, with no other keys on the instance, is false of the
source: the class body declares six fields (the two extra ones are the private
`defaultStates` and `defaultTimeFrame`, own properties of the runtime instance),
and none of the four public fields carries the `readonly` modifier. -/
theorem four_public_readonly_keys_refuted :
    claimC5Check = false ∧
    (GlobalFilterDefaults.new.toJsInstance.keys ==
      ["flows", "deployments", "flow_runs", "task_runs"]) = false := by
  decide

/-- C5 amended: every instance has exactly four public fields — `flows`,
`deployments`, `flow_runs`, `task_runs` — and they are its only public fields,
though none is declared `readonly`; the only other fields are the two private
`readonly` fields `defaultStates` and `defaultTimeFrame`, so the runtime
instance's own-property keys are those six field names in declaration order. -/
theorem class_fields_structure (g : GlobalFilterDefaults)
    (h : g = GlobalFilterDefaults.new) :
    (GlobalFilterDefaults.fieldDecls.filter (fun f => f.isPublic)).map (fun f => f.fieldName) =
      ["flows", "deployments", "flow_runs", "task_runs"] ∧
    (GlobalFilterDefaults.fieldDecls.filter (fun f => !f.isPublic)).map (fun f => f.fieldName) =
      ["defaultStates", "defaultTimeFrame"] ∧
    (GlobalFilterDefaults.fieldDecls.all fun f => f.isPublic != f.isReadonly) = true ∧
    g.toJsInstance.keys = GlobalFilterDefaults.fieldDecls.map (fun f => f.fieldName) := by
  subst h
  refine ⟨rfl, rfl, rfl, ?_⟩
  decide

/-- C5 witness: the amended theorem evaluated at the constructed instance. -/
theorem class_fields_structure_witness :
    (GlobalFilterDefaults.fieldDecls.filter (fun f => f.isPublic)).map (fun f => f.fieldName) =
      ["flows", "deployments", "flow_runs", "task_runs"] ∧
    (GlobalFilterDefaults.fieldDecls.filter (fun f => !f.isPublic)).map (fun f => f.fieldName) =
      ["defaultStates", "defaultTimeFrame"] ∧
    (GlobalFilterDefaults.fieldDecls.all fun f => f.isPublic != f.isReadonly) = true ∧
    GlobalFilterDefaults.new.toJsInstance.keys =
      GlobalFilterDefaults.fieldDecls.map (fun f => f.fieldName) :=
  class_fields_structure GlobalFilterDefaults.new rfl

/-- C6: for every `RunState` record in the default states list of every
instance, the `type` field lies in the fixed closed set
{SCHEDULED, PENDING, RUNNING, COMPLETED, FAILED, CANCELLED}. -/
theorem states_type_closed_set (g : GlobalFilterDefaults)
    (h : g = GlobalFilterDefaults.new) :
    ∀ s ∈ g.flow_runs.states,
      s.type ∈ ["SCHEDULED", "PENDING", "RUNNING", "COMPLETED", "FAILED", "CANCELLED"] := by
  subst h
  decide

/-- C6 witness: the theorem applied to the constructed instance and one
concrete member of its states list. -/
theorem states_type_closed_set_witness :
    RunState.type { name := "Failed", type := "FAILED" } ∈
      ["SCHEDULED", "PENDING", "RUNNING", "COMPLETED", "FAILED", "CANCELLED"] :=
  states_type_closed_set GlobalFilterDefaults.new rfl
    { name := "Failed", type := "FAILED" } (by decide)

/-- C7: construction is deterministic and idempotent: any two instances built
by the constructor have deep-equal runtime payloads. -/
theorem construction_deterministic_deep_equal (g₁ g₂ : GlobalFilterDefaults)
    (h₁ : g₁ = GlobalFilterDefaults.new) (h₂ : g₂ = GlobalFilterDefaults.new) :
    JsValue.deepEqual g₁.toJsInstance g₂.toJsInstance = true := by
  subst h₁
  subst h₂
  decide

/-- C7 witness: two constructed instances compared with deep equality. -/
theorem construction_deterministic_deep_equal_witness :
    JsValue.deepEqual GlobalFilterDefaults.new.toJsInstance
      GlobalFilterDefaults.new.toJsInstance = true :=
  construction_deterministic_deep_equal GlobalFilterDefaults.new GlobalFilterDefaults.new rfl rfl

/-- C8: for every instance, the six type codes of `flow_runs.states` appear in
the exact lifecycle order SCHEDULED, PENDING, RUNNING, COMPLETED, FAILED,
CANCELLED and are pairwise distinct. -/
theorem states_lifecycle_order_nodup (g : GlobalFilterDefaults)
    (h : g = GlobalFilterDefaults.new) :
    g.flow_runs.states.map RunState.type =
      ["SCHEDULED", "PENDING", "RUNNING", "COMPLETED", "FAILED", "CANCELLED"] ∧
    (g.flow_runs.states.map RunState.type).Nodup := by
  subst h
  exact ⟨rfl, by decide⟩

/-- C8 witness: the theorem evaluated at the constructed instance. -/
theorem states_lifecycle_order_nodup_witness :
    GlobalFilterDefaults.new.flow_runs.states.map RunState.type =
      ["SCHEDULED", "PENDING", "RUNNING", "COMPLETED", "FAILED", "CANCELLED"] ∧
    (GlobalFilterDefaults.new.flow_runs.states.map RunState.type).Nodup :=
  states_lifecycle_order_nodup GlobalFilterDefaults.new rfl

/-- C9: for every instance, the default timeframe is a well-formed
backward-looking window: both units are 'days', both values are positive, and
the `from` offset is strictly larger than the `to` offset. -/
theorem timeframe_backward_window_wellformed (g : GlobalFilterDefaults)
    (h : g = GlobalFilterDefaults.new) :
    g.flow_runs.timeframe.«from».unit = "days" ∧
    g.flow_runs.timeframe.«to».unit = "days" ∧
    0 < g.flow_runs.timeframe.«from».value ∧
    0 < g.flow_runs.timeframe.«to».value ∧
    g.flow_runs.timeframe.«to».value < g.flow_runs.timeframe.«from».value := by
  subst h
  refine ⟨rfl, rfl, ?_, ?_, ?_⟩ <;> decide

/-- C9 witness: the theorem evaluated at the constructed instance. -/
theorem timeframe_backward_window_wellformed_witness :
    GlobalFilterDefaults.new.flow_runs.timeframe.«from».unit = "days" ∧
    GlobalFilterDefaults.new.flow_runs.timeframe.«to».unit = "days" ∧
    0 < GlobalFilterDefaults.new.flow_runs.timeframe.«from».value ∧
    0 < GlobalFilterDefaults.new.flow_runs.timeframe.«to».value ∧
    GlobalFilterDefaults.new.flow_runs.timeframe.«to».value <
      GlobalFilterDefaults.new.flow_runs.timeframe.«from».value :=
  timeframe_backward_window_wellformed GlobalFilterDefaults.new rfl

/-- C10: for every `RunState` record in the default states list, the display
name is the type code with only its first letter capitalized and the remaining
letters lower-cased. -/
theorem state_name_capitalizes_type (g : GlobalFilterDefaults)
    (h : g = GlobalFilterDefaults.new) :
    ∀ s ∈ g.flow_runs.states, s.name = capitalizeFirst s.type := by
  subst h
  decide

/-- C10 witness: the theorem applied to the constructed instance and one
concrete member of its states list. -/
theorem state_name_capitalizes_type_witness :
    RunState.name { name := "Scheduled", type := "SCHEDULED" } =
      capitalizeFirst (RunState.type { name := "Scheduled", type := "SCHEDULED" }) :=
  state_name_capitalizes_type GlobalFilterDefaults.new rfl
    { name := "Scheduled", type := "SCHEDULED" } (by decide)
